import Mathlib

/-!
Shallow embedding of the webrisk-demo client
(`src/frontend/src/components/SubmissionTab.js`).

The file holds two React components: `SubmissionTab` (a submission form
plus a bulk status refresh over the whole list, no persistence) and
`WebRiskDemo` (scan handling, submission handling with localStorage
persistence, a per-record status refresh, and history clearing).

Remote calls (`fetch`) and the browser's `localStorage` / `JSON` builtins
are external collaborators; handlers are embedded as pure functions taking
the parsed outcome of the remote call as an argument and returning the new
component state together with the trace of requests / storage operations
they issue.  Timestamps (`Date.now()`, `new Date().toISOString()`) are
passed in as arguments.
-/

namespace WebRisk

/-- One per-threat-type score in a scan response: `{threatType, confidenceLevel}`.
Both fields are strings in the JSON the client receives. -/
structure ScoreEntry where
  threatType : String
  confidenceLevel : String
deriving DecidableEq, Repr

/-- The optional `resolvedUriScore` object of a scan response. -/
structure ResolvedUriScore where
  resolvedUri : String
  scores : List ScoreEntry
deriving DecidableEq, Repr

/-- The parsed JSON body of a scan response: `scores` may be missing
(`!data.scores` in `handleScan`), `resolvedUriScore` is optional. -/
structure ScanData where
  scores : Option (List ScoreEntry)
  resolvedUriScore : Option ResolvedUriScore
deriving DecidableEq, Repr

/-- A scan result as built by `handleScan`: `scores` and `resolvedUriScore`
are absent on the error path, `details` is present only on the error path. -/
structure ScanResult where
  id : Nat
  url : String
  status : String
  timestamp : String
  scores : Option (List ScoreEntry)
  resolvedUriScore : Option ResolvedUriScore
  details : Option String
deriving DecidableEq, Repr

/-- Outcome of the `fetch`/`response.json()` pair in `handleScan`:
either a parsed body, or a thrown error carrying `error.message`
(`none` when the thrown value has no message). -/
inductive FetchOutcome where
  | ok (data : ScanData)
  | err (message : Option String)
deriving DecidableEq, Repr

/-- JS `error.message || 'Failed to scan URL'`: the fallback fires when the
message is absent or the empty string (both falsy). -/
def scanErrorDetail (message : Option String) : String :=
  match message with
  | some m => if m = "" then "Failed to scan URL" else m
  | none => "Failed to scan URL"

/-- `handleScan`'s safety test: `data.scores.every((score) => score.confidenceLevel === 'SAFE')`. -/
def isSafeScan (scores : List ScoreEntry) : Bool :=
  scores.all (fun score => score.confidenceLevel == "SAFE")

/-- `handleScan` (WebRiskDemo): builds a ScanResult from the fetch outcome and
prepends it to `results`.  A response without `scores` throws
`Error('No scores received from API')`, which the catch block turns into an
error result; any other failure yields an error result with
`error.message || 'Failed to scan URL'`. -/
def handleScan (now : Nat) (nowIso : String) (url : String)
    (outcome : FetchOutcome) (results : List ScanResult) : List ScanResult :=
  match outcome with
  | FetchOutcome.ok data =>
    match data.scores with
    | some scores =>
      { id := now, url := url,
        status := if isSafeScan scores then "safe" else "threat",
        timestamp := nowIso, scores := some scores,
        resolvedUriScore := data.resolvedUriScore, details := none } :: results
    | none =>
      { id := now, url := url, status := "error", timestamp := nowIso,
        scores := none, resolvedUriScore := none,
        details := some "No scores received from API" } :: results
  | FetchOutcome.err message =>
    { id := now, url := url, status := "error", timestamp := nowIso,
      scores := none, resolvedUriScore := none,
      details := some (scanErrorDetail message) } :: results

/-- The predicate shared by `hasHighRisk` and `handleQuickSubmit`:
`['MEDIUM', 'HIGH', 'HIGHER', 'EXTREMELY_HIGH'].includes(score.confidenceLevel)`. -/
def isSubmittableLevel (score : ScoreEntry) : Bool :=
  ["MEDIUM", "HIGH", "HIGHER", "EXTREMELY_HIGH"].contains score.confidenceLevel

/-- `hasHighRisk` (WebRiskDemo): some entry has a MEDIUM-or-above level. -/
def hasHighRisk (scores : List ScoreEntry) : Bool :=
  scores.any isSubmittableLevel

/-- The submission form state of WebRiskDemo. -/
structure SubmissionForm where
  url : String
  evidence : String
  abuseType : String
  platform : String
  regionCodes : List String
deriving DecidableEq, Repr

/-- The initial / reset value of the submission form. -/
def initialSubmissionForm : SubmissionForm :=
  { url := "", evidence := "", abuseType := "",
    platform := "PLATFORM_UNSPECIFIED", regionCodes := ["US"] }

/-- The abuse-type pre-fill computed by `handleQuickSubmit`:
`result.scores.find(score => [...].includes(score.confidenceLevel))?.threatType || ''`
(the `|| ''` only replaces an absent or empty `threatType` by `''`, which on
strings is the identity). -/
def quickSubmitAbuseType (scores : List ScoreEntry) : String :=
  match scores.find? isSubmittableLevel with
  | some score => score.threatType
  | none => ""

/-- `handleQuickSubmit` (WebRiskDemo): pre-fills the form's `url` and
`abuseType` from a risky scan result, keeping the other fields. -/
def handleQuickSubmit (form : SubmissionForm) (url : String)
    (scores : List ScoreEntry) : SubmissionForm :=
  { form with url := url, abuseType := quickSubmitAbuseType scores }

/-- A submission record as built by WebRiskDemo's `handleSubmit` and updated by
`refreshSubmissionStatus`; `details` is added by a successful refresh. -/
structure SubmissionRecord where
  id : Nat
  url : String
  operation : String
  timestamp : String
  lastUpdated : String
  evidence : String
  abuseType : String
  platform : String
  status : String
  details : Option String
deriving DecidableEq, Repr

/-- The content of the `localStorage` slot `webRiskSubmissions`.
`JSON.stringify` / `JSON.parse` are browser builtins (mutually inverse on
these records, whose fields are strings and numbers), so the slot is
modelled by the value it serialises: `absent` (no key), `unparsable`
(content `JSON.parse` rejects, or the empty string), or a serialised list. -/
inductive Slot where
  | absent
  | unparsable
  | value (subs : List SubmissionRecord)
deriving DecidableEq, Repr

/-- `saveSubmissionsToStorage`: `localStorage.setItem(STORAGE_KEY, JSON.stringify(submissions))`
inside try/catch — a throwing `setItem` (`ok = false`) is logged and swallowed,
leaving the slot as it was. -/
def saveSubmissionsToStorage (ok : Bool) (submissions : List SubmissionRecord)
    (slot : Slot) : Slot :=
  if ok then Slot.value submissions else slot

/-- `loadSubmissionsFromStorage`: `stored ? JSON.parse(stored) : []` inside
try/catch — an absent key or unparsable content yields `[]`. -/
def loadSubmissionsFromStorage (slot : Slot) : List SubmissionRecord :=
  match slot with
  | Slot.absent => []
  | Slot.unparsable => []
  | Slot.value subs => subs

/-- `clearSubmissionHistory` (WebRiskDemo): behind `window.confirm`; when
confirmed, sets the list to `[]` and removes the storage key; otherwise
nothing happens. -/
def clearSubmissionHistory (confirmed : Bool)
    (submissions : List SubmissionRecord) (slot : Slot) :
    List SubmissionRecord × Slot :=
  if confirmed then ([], Slot.absent) else (submissions, slot)

/-- The JSON body WebRiskDemo's `handleSubmit` POSTs to `/api/submit`,
copied field by field from `submissionForm`. -/
structure SubmitRequest where
  url : String
  evidence : String
  abuseType : String
  platform : String
  regionCodes : List String
deriving DecidableEq, Repr

/-- The request body built from the current form state. -/
def mkSubmitRequest (form : SubmissionForm) : SubmitRequest :=
  { url := form.url, evidence := form.evidence, abuseType := form.abuseType,
    platform := form.platform, regionCodes := form.regionCodes }

/-- Outcome of the `fetch('/api/submit')`/`response.json()` pair:
a parsed body (whose `operation` field may be missing) or a thrown error. -/
inductive SubmitOutcome where
  | ok (operation : Option String) (timestamp : String)
  | err
deriving DecidableEq, Repr

/-- JS truthiness of `data.operation`: a missing field or the empty string
fails the `if (data.operation)` guard. -/
def operationTruthy (operation : Option String) : Bool :=
  match operation with
  | some op => op != ""
  | none => false

/-- Result of one `handleSubmit` call: the requests issued to the submission
service, and the new submission list, form state and storage slot. -/
structure SubmitResult where
  requests : List SubmitRequest
  submissions : List SubmissionRecord
  form : SubmissionForm
  storage : Slot
deriving DecidableEq, Repr

/-- `handleSubmit` (WebRiskDemo): POSTs the form to `/api/submit` with no
prior validation of any field; when the response carries a truthy
`operation`, prepends a PENDING record, persists the list and resets the
form; otherwise (falsy `operation`, or a thrown fetch/parse error caught
and logged) leaves list, form and storage untouched. -/
def handleSubmit (now : Nat) (nowIso : String) (form : SubmissionForm)
    (outcome : SubmitOutcome) (submissions : List SubmissionRecord)
    (slot : Slot) : SubmitResult :=
  let req := mkSubmitRequest form
  match outcome with
  | SubmitOutcome.ok operation timestamp =>
    if operationTruthy operation then
      let newSubmission : SubmissionRecord :=
        { id := now, url := form.url, operation := operation.getD "",
          timestamp := timestamp, lastUpdated := nowIso,
          evidence := form.evidence, abuseType := form.abuseType,
          platform := form.platform, status := "PENDING", details := none }
      let updated := newSubmission :: submissions
      { requests := [req], submissions := updated,
        form := initialSubmissionForm,
        storage := saveSubmissionsToStorage true updated slot }
    else
      { requests := [req], submissions := submissions, form := form,
        storage := slot }
  | SubmitOutcome.err =>
    { requests := [req], submissions := submissions, form := form,
      storage := slot }

/-- `operation.split('/').pop()`: the last `/`-separated segment of the
operation handle. -/
def operationPollId (operation : String) : String :=
  (operation.splitOn "/").getLastD ""

/-- Outcome of the status fetch in WebRiskDemo's `refreshSubmissionStatus`:
a parsed body `{status, details?}`, a non-2xx response (`!response.ok`
throws `HTTP error ...`), or a thrown fetch/parse error. -/
inductive StatusFetchOutcome where
  | ok (status : String) (details : Option String)
  | httpError (code : Nat)
  | transportError
deriving DecidableEq, Repr

/-- Result of one per-record refresh: new list, new slot, and the requests
attempted against the submission service. -/
structure RefreshResult where
  submissions : List SubmissionRecord
  storage : Slot
  requests : List String
deriving DecidableEq, Repr

/-- `refreshSubmissionStatus` (WebRiskDemo): unconditionally fetches
`/api/submission/` ++ the last segment of `operation` — the record's current
status is never consulted.  On success, every record whose `operation`
equals the argument gets the response's status, a fresh `lastUpdated` and
the response's `details`, and the list is persisted; on a non-ok response or
a thrown error, the catch block logs and nothing changes. -/
def refreshSubmissionStatus (nowIso : String) (operation : String)
    (outcome : StatusFetchOutcome) (submissions : List SubmissionRecord)
    (slot : Slot) : RefreshResult :=
  let req := "/api/submission/" ++ operationPollId operation
  match outcome with
  | StatusFetchOutcome.ok status details =>
    let updated := submissions.map (fun sub =>
      if sub.operation == operation then
        { sub with status := status, lastUpdated := nowIso, details := details }
      else sub)
    { submissions := updated,
      storage := saveSubmissionsToStorage true updated slot,
      requests := [req] }
  | StatusFetchOutcome.httpError _ =>
    { submissions := submissions, storage := slot, requests := [req] }
  | StatusFetchOutcome.transportError =>
    { submissions := submissions, storage := slot, requests := [req] }

/-- A `localStorage` operation on the `webRiskSubmissions` slot. -/
inductive StorageOp where
  | setItem (submissions : List SubmissionRecord)
  | removeItem
deriving DecidableEq, Repr

/-- The per-record lambda inside SubmissionTab's bulk `refreshSubmissionStatus`
(`submissions.map(async (submission) => ...)`): a PENDING record is refreshed
by one fetch of `/api/submission/` ++ its operation (`none` models a thrown
fetch/parse error, caught and logged, leaving the record unchanged; note the
bulk variant checks neither `response.ok` nor splits the operation); a
non-PENDING record is returned as is with no fetch. -/
def bulkRefreshOne (fetchStatus : String → Option String)
    (sub : SubmissionRecord) : SubmissionRecord × List String :=
  if sub.status == "PENDING" then
    match fetchStatus sub.operation with
    | some status => ({ sub with status := status },
        ["/api/submission/" ++ sub.operation])
    | none => (sub, ["/api/submission/" ++ sub.operation])
  else (sub, [])

/-- `refreshSubmissionStatus` (SubmissionTab): `Promise.all` over the
per-record refreshes, then a single `setSubmissions` of the assembled list.
The SubmissionTab component holds its list in memory only — it contains no
`localStorage` call at all, so the storage-operation trace is empty. -/
def refreshSubmissionStatusAll (fetchStatus : String → Option String)
    (submissions : List SubmissionRecord) :
    List SubmissionRecord × List StorageOp :=
  (submissions.map (fun sub => (bulkRefreshOne fetchStatus sub).1), [])

/-- The scan outcomes the catch block of `handleScan` turns into an error
result: a thrown fetch/parse error, or a response body without `scores`. -/
def scanFailed (outcome : FetchOutcome) : Bool :=
  match outcome with
  | FetchOutcome.ok data => data.scores.isNone
  | FetchOutcome.err _ => true

/-- Modelled from the spec for comparison with `handleScan`: the SAFE
condition of the Risk Classifier contract — every entry of `scores` has
confidenceLevel SAFE or LOW, and `resolved` is absent or every entry of
`resolved.scores` has confidenceLevel SAFE or LOW. -/
def specSafeCondition (scores : List ScoreEntry)
    (resolved : Option ResolvedUriScore) : Bool :=
  scores.all (fun s => s.confidenceLevel == "SAFE" || s.confidenceLevel == "LOW") &&
  (match resolved with
   | none => true
   | some r =>
     r.scores.all (fun s => s.confidenceLevel == "SAFE" || s.confidenceLevel == "LOW"))

/-- A concrete submission record in the terminal SUCCEEDED state. -/
def succeededRecord : SubmissionRecord :=
  { id := 1, url := "http://x", operation := "submissions/123",
    timestamp := "t0", lastUpdated := "t0", evidence := "e",
    abuseType := "MALWARE", platform := "ANDROID", status := "SUCCEEDED",
    details := none }

/-- A concrete form whose evidence field is empty. -/
def emptyEvidenceForm : SubmissionForm :=
  { url := "http://x", evidence := "", abuseType := "MALWARE",
    platform := "ANDROID", regionCodes := ["US"] }

/-- A concrete PENDING record with operation handle `op-a`. -/
def pendingA : SubmissionRecord :=
  { id := 1, url := "http://a", operation := "op-a", timestamp := "t",
    lastUpdated := "t", evidence := "ea", abuseType := "MALWARE",
    platform := "ANDROID", status := "PENDING", details := none }

/-- A concrete PENDING record with operation handle `op-b`. -/
def pendingB : SubmissionRecord :=
  { id := 2, url := "http://b", operation := "op-b", timestamp := "t",
    lastUpdated := "t", evidence := "eb", abuseType := "SOCIAL_ENGINEERING",
    platform := "IOS", status := "PENDING", details := none }

/-- A concrete status oracle under which the refresh of `op-a` fails with a
transport error and every other refresh succeeds with SUCCEEDED. -/
def oneFailFetch : String → Option String :=
  fun operation => if operation = "op-a" then none else some "SUCCEEDED"

/-! ## Theorems -/

/-- C6: saving the submission list and loading it back yields the identical
ordered sequence, and loading from an absent or unparsable slot yields the
empty sequence (the loader never fails its caller: it is total). -/
theorem save_load_roundTrip (submissions : List SubmissionRecord) (slot : Slot) :
    loadSubmissionsFromStorage (saveSubmissionsToStorage true submissions slot)
      = submissions ∧
    loadSubmissionsFromStorage Slot.absent = [] ∧
    loadSubmissionsFromStorage Slot.unparsable = [] :=
  ⟨rfl, rfl, rfl⟩

/-- C7: `hasHighRisk` is true iff some entry's confidenceLevel is MEDIUM,
HIGH, HIGHER or EXTREMELY_HIGH; it is false on the empty sequence and on any
sequence whose entries are all SAFE or LOW. -/
theorem hasHighRisk_iff_mediumPlus (scores : List ScoreEntry) :
    (hasHighRisk scores = true ↔
      ∃ e ∈ scores,
        e.confidenceLevel ∈ ["MEDIUM", "HIGH", "HIGHER", "EXTREMELY_HIGH"]) ∧
    hasHighRisk [] = false ∧
    ((∀ e ∈ scores, e.confidenceLevel = "SAFE" ∨ e.confidenceLevel = "LOW") →
      hasHighRisk scores = false) := by
  refine ⟨?_, rfl, ?_⟩
  · simp [hasHighRisk, List.any_eq_true, isSubmittableLevel]
  · intro h
    rw [hasHighRisk, List.any_eq_false]
    intro e he
    rcases h e he with h1 | h1 <;> simp [isSubmittableLevel, h1]

/-- C7 witness: on a concrete all-SAFE sequence, the theorem's all-SAFE/LOW
hypothesis holds and `hasHighRisk` evaluates to false. -/
theorem hasHighRisk_iff_mediumPlus_witness :
    (∀ e ∈ [ScoreEntry.mk "MALWARE" "SAFE", ScoreEntry.mk "SOCIAL_ENGINEERING" "LOW"],
      e.confidenceLevel = "SAFE" ∨ e.confidenceLevel = "LOW") ∧
    hasHighRisk [ScoreEntry.mk "MALWARE" "SAFE", ScoreEntry.mk "SOCIAL_ENGINEERING" "LOW"] = false :=
  ⟨by decide,
   (hasHighRisk_iff_mediumPlus
     [ScoreEntry.mk "MALWARE" "SAFE", ScoreEntry.mk "SOCIAL_ENGINEERING" "LOW"]).2.2
     (by decide)⟩

/-- Helper for C8: `quickSubmitAbuseType` picks the first MEDIUM-or-above
entry's threatType, or `""` when none qualifies. -/
theorem quickSubmitAbuseType_first_match (scores : List ScoreEntry) :
    (quickSubmitAbuseType scores = "" ∧
      ∀ e ∈ scores, isSubmittableLevel e = false) ∨
    (∃ i, ∃ h : i < scores.length,
      isSubmittableLevel (scores.get ⟨i, h⟩) = true ∧
      (∀ e ∈ scores.take i, isSubmittableLevel e = false) ∧
      quickSubmitAbuseType scores = (scores.get ⟨i, h⟩).threatType) := by
  induction scores with
  | nil => exact Or.inl ⟨rfl, by simp⟩
  | cons s rest ih =>
    by_cases hs : isSubmittableLevel s = true
    · right
      refine ⟨0, by simp, by simpa using hs, by simp, ?_⟩
      simp [quickSubmitAbuseType, List.find?_cons_of_pos _ hs]
    · replace hs : isSubmittableLevel s = false := by simpa using hs
      have hfind : quickSubmitAbuseType (s :: rest) = quickSubmitAbuseType rest := by
        rw [quickSubmitAbuseType, quickSubmitAbuseType,
          List.find?_cons_of_neg _ (by simp [hs])]
      rcases ih with ⟨h1, h2⟩ | ⟨i, hi, hqi, htake, heq⟩
      · left
        refine ⟨by rw [hfind]; exact h1, ?_⟩
        intro e he
        rcases List.mem_cons.mp he with rfl | he'
        · exact hs
        · exact h2 e he'
      · right
        refine ⟨i + 1, Nat.succ_lt_succ hi, by simpa using hqi, ?_, ?_⟩
        · intro e he
          rw [List.take_succ_cons] at he
          rcases List.mem_cons.mp he with rfl | he'
          · exact hs
          · exact htake e he'
        · rw [hfind, heq]
          congr 1

/-- C8: the abuse-type pre-fill computed by `handleQuickSubmit` is the
threatType of the first entry, in the sequence's given order, whose
confidenceLevel is MEDIUM or above, and is empty when no entry qualifies. -/
theorem quickSubmit_prefill_first_match (form : SubmissionForm) (url : String)
    (scores : List ScoreEntry) :
    ((handleQuickSubmit form url scores).abuseType = "" ∧
      ∀ e ∈ scores, isSubmittableLevel e = false) ∨
    (∃ i, ∃ h : i < scores.length,
      isSubmittableLevel (scores.get ⟨i, h⟩) = true ∧
      (∀ e ∈ scores.take i, isSubmittableLevel e = false) ∧
      (handleQuickSubmit form url scores).abuseType
        = (scores.get ⟨i, h⟩).threatType) :=
  quickSubmitAbuseType_first_match scores

/-- C9: `clearSubmissionHistory` with the confirmation refused leaves the
in-memory list and the persisted slot unchanged; with the confirmation given
it empties the list and erases the slot. -/
theorem clearSubmissionHistory_spec (submissions : List SubmissionRecord)
    (slot : Slot) :
    clearSubmissionHistory false submissions slot = (submissions, slot) ∧
    clearSubmissionHistory true submissions slot = ([], Slot.absent) :=
  ⟨rfl, rfl⟩

/-- Helper: the safety test of `handleScan` holds iff every entry is exactly
SAFE. -/
theorem isSafeScan_iff_all_SAFE (scores : List ScoreEntry) :
    isSafeScan scores = true ↔ ∀ e ∈ scores, e.confidenceLevel = "SAFE" := by
  simp [isSafeScan, List.all_eq_true]

/-- C1 counterexample: the claimed SAFE condition (all entries SAFE or LOW,
resolved scores also SAFE or LOW) disagrees with `handleScan` on two concrete
responses — a lone LOW entry satisfies the condition yet yields status
"threat", and an all-SAFE response with a HIGH resolved score violates the
condition yet yields status "safe". -/
theorem handleScan_status_counterexample :
    (specSafeCondition [ScoreEntry.mk "MALWARE" "LOW"] none = true ∧
      (handleScan 1 "t" "http://a"
        (FetchOutcome.ok (ScanData.mk (some [ScoreEntry.mk "MALWARE" "LOW"]) none))
        []).map ScanResult.status = ["threat"]) ∧
    (specSafeCondition [ScoreEntry.mk "MALWARE" "SAFE"]
        (some (ResolvedUriScore.mk "http://b" [ScoreEntry.mk "SOCIAL_ENGINEERING" "HIGH"]))
        = false ∧
      (handleScan 2 "t" "http://a"
        (FetchOutcome.ok (ScanData.mk (some [ScoreEntry.mk "MALWARE" "SAFE"])
          (some (ResolvedUriScore.mk "http://b" [ScoreEntry.mk "SOCIAL_ENGINEERING" "HIGH"]))))
        []).map ScanResult.status = ["safe"]) ∧
    ("threat" : String) ≠ "safe" := by
  decide

/-- C1 (amended): for a response containing a scores field, `handleScan`
prepends a result whose status is "safe" iff every entry of scores has
confidenceLevel exactly SAFE, and "threat" otherwise; `resolvedUriScore` is
captured verbatim but not consulted for the status. -/
theorem handleScan_status_safe_iff (now : Nat) (nowIso url : String)
    (scores : List ScoreEntry) (resolved : Option ResolvedUriScore)
    (results : List ScanResult) :
    ∃ r, handleScan now nowIso url
        (FetchOutcome.ok (ScanData.mk (some scores) resolved)) results
        = r :: results ∧
      (r.status = "safe" ↔ ∀ e ∈ scores, e.confidenceLevel = "SAFE") ∧
      (r.status = "safe" ∨ r.status = "threat") ∧
      r.resolvedUriScore = resolved := by
  refine ⟨_, rfl, ?_, ?_, rfl⟩
  · rw [← isSafeScan_iff_all_SAFE]
    by_cases hsafe : isSafeScan scores = true <;> simp [hsafe]
  · by_cases hsafe : isSafeScan scores = true <;> simp [hsafe]

/-- C2 counterexample: the per-record `refreshSubmissionStatus` of
WebRiskDemo, applied to a record already in the terminal SUCCEEDED state,
still issues a network request and overwrites the record with the response
status, contradicting the claim that a non-PENDING record is returned
unchanged with no network call. -/
theorem refresh_nonPending_counterexample :
    succeededRecord.status = "SUCCEEDED" ∧
    (refreshSubmissionStatus "t1" "submissions/123"
      (StatusFetchOutcome.ok "CLOSED" none) [succeededRecord]
      Slot.absent).requests ≠ [] ∧
    (refreshSubmissionStatus "t1" "submissions/123"
      (StatusFetchOutcome.ok "CLOSED" none) [succeededRecord]
      Slot.absent).submissions ≠ [succeededRecord] := by
  refine ⟨rfl, ?_, ?_⟩
  · simp [refreshSubmissionStatus]
  · decide

/-- C2 (amended): only the bulk refresh of SubmissionTab skips non-PENDING
records — there a record whose status is not PENDING is returned unchanged
and no request is issued for it — while the per-record refresh of
WebRiskDemo always issues a request, whatever the record statuses. -/
theorem bulkRefresh_skips_nonPending (fetchStatus : String → Option String)
    (sub : SubmissionRecord) (h : sub.status ≠ "PENDING")
    (nowIso operation : String) (outcome : StatusFetchOutcome)
    (submissions : List SubmissionRecord) (slot : Slot) :
    bulkRefreshOne fetchStatus sub = (sub, []) ∧
    (refreshSubmissionStatus nowIso operation outcome submissions
      slot).requests ≠ [] := by
  constructor
  · rw [bulkRefreshOne]
    simp [h]
  · cases outcome <;> simp [refreshSubmissionStatus]

/-- C2 witness: the amended theorem applied to a concrete SUCCEEDED record. -/
theorem bulkRefresh_skips_nonPending_witness :
    succeededRecord.status ≠ "PENDING" ∧
    (bulkRefreshOne (fun _ => none) succeededRecord = (succeededRecord, []) ∧
     (refreshSubmissionStatus "t1" "submissions/123"
       (StatusFetchOutcome.ok "CLOSED" none) [succeededRecord]
       Slot.absent).requests ≠ []) :=
  ⟨by decide,
   bulkRefresh_skips_nonPending (fun _ => none) succeededRecord (by decide)
     "t1" "submissions/123" (StatusFetchOutcome.ok "CLOSED" none)
     [succeededRecord] Slot.absent⟩

/-- C3 counterexample: `handleSubmit` with an empty evidence field still
issues a request to the submission service (the handler performs no
validation), contradicting the claimed fail-fast ValidationError. -/
theorem handleSubmit_emptyEvidence_counterexample :
    emptyEvidenceForm.evidence = "" ∧
    (handleSubmit 1 "t1" emptyEvidenceForm
      (SubmitOutcome.ok (some "submissions/123") "t0") []
      Slot.absent).requests ≠ [] := by
  decide

/-- C3 (amended): `handleSubmit` validates nothing — for every form state
(empty url or evidence, out-of-enum abuseType or platform included) and
every outcome it issues exactly one request, carrying the form fields
verbatim; required-field enforcement lives only in the form markup. -/
theorem handleSubmit_always_requests (now : Nat) (nowIso : String)
    (form : SubmissionForm) (outcome : SubmitOutcome)
    (submissions : List SubmissionRecord) (slot : Slot) :
    (handleSubmit now nowIso form outcome submissions slot).requests
      = [mkSubmitRequest form] ∧
    (mkSubmitRequest form).url = form.url ∧
    (mkSubmitRequest form).evidence = form.evidence ∧
    (mkSubmitRequest form).abuseType = form.abuseType ∧
    (mkSubmitRequest form).platform = form.platform := by
  refine ⟨?_, rfl, rfl, rfl, rfl⟩
  cases outcome with
  | ok operation timestamp =>
    rw [handleSubmit]
    by_cases h : operationTruthy operation = true <;> simp [h]
  | err => rfl

/-- C5: on a response without a scores field or on a transport/parse
failure, `handleScan` prepends a result with status "error", a nonempty
detail message — the thrown error message when one is available — and no
scores; the prior results are the untouched tail of the new list. -/
theorem handleScan_error_path (now : Nat) (nowIso url : String)
    (outcome : FetchOutcome) (results : List ScanResult)
    (h : scanFailed outcome = true) :
    ∃ r, handleScan now nowIso url outcome results = r :: results ∧
      r.status = "error" ∧
      (∃ d, r.details = some d ∧ d ≠ "") ∧
      (∀ m, outcome = FetchOutcome.err (some m) → m ≠ "" → r.details = some m) ∧
      (outcome = FetchOutcome.err none → r.details = some "Failed to scan URL") ∧
      r.scores = none := by
  cases outcome with
  | ok data =>
    obtain ⟨sc, rso⟩ := data
    cases sc with
    | some scores => simp [scanFailed] at h
    | none =>
      refine ⟨_, rfl, rfl, ⟨"No scores received from API", rfl, by decide⟩,
        ?_, ?_, rfl⟩
      · intro m hm
        cases hm
      · intro hm
        cases hm
  | err message =>
    cases message with
    | none =>
      refine ⟨_, rfl, rfl, ⟨"Failed to scan URL", rfl, by decide⟩,
        ?_, fun _ => rfl, rfl⟩
      intro m hm
      cases hm
    | some m0 =>
      by_cases hm0 : m0 = ""
      · subst hm0
        refine ⟨_, rfl, rfl, ⟨"Failed to scan URL", by simp [scanErrorDetail], by decide⟩,
          ?_, ?_, rfl⟩
        · intro m hm hne
          injection hm with h1
          injection h1 with h2
          exact absurd h2.symm hne
        · intro hm
          cases hm
      · refine ⟨_, rfl, rfl,
          ⟨scanErrorDetail (some m0), rfl, by simp [scanErrorDetail, hm0]⟩,
          ?_, ?_, rfl⟩
        · intro m hm hne
          injection hm with h1
          injection h1 with h2
          subst h2
          simp [scanErrorDetail, hm0]
        · intro hm
          cases hm

/-- C5 witness: the theorem applied to a concrete transport failure with
message "network down" against a one-element prior list. -/
theorem handleScan_error_path_witness :
    scanFailed (FetchOutcome.err (some "network down")) = true ∧
    (∃ r, handleScan 7 "t1" "http://x" (FetchOutcome.err (some "network down"))
        [] = r :: [] ∧
      r.status = "error" ∧
      (∃ d, r.details = some d ∧ d ≠ "") ∧
      (∀ m, FetchOutcome.err (some "network down") = FetchOutcome.err (some m) →
        m ≠ "" → r.details = some m) ∧
      (FetchOutcome.err (some "network down") = FetchOutcome.err none →
        r.details = some "Failed to scan URL") ∧
      r.scores = none) :=
  ⟨rfl, handleScan_error_path 7 "t1" "http://x"
    (FetchOutcome.err (some "network down")) [] rfl⟩

/-- C4 counterexample: the bulk refresh of SubmissionTab, run over two
PENDING records of which the first fails with a transport error, performs no
write at all to persistent storage — the component holds its list in memory
only — contradicting the claimed single persistence write. -/
theorem refreshAll_write_count_counterexample :
    (∀ sub ∈ [pendingA, pendingB], sub.status = "PENDING") ∧
    oneFailFetch pendingA.operation = none ∧
    oneFailFetch pendingB.operation = some "SUCCEEDED" ∧
    (refreshSubmissionStatusAll oneFailFetch [pendingA, pendingB]).2.length ≠ 1 := by
  decide

/-- C4 (amended): the bulk refresh over N PENDING records of which exactly
one fails with a transport error resolves with all N records, in order, the
failing record unchanged and every other record carrying its new status —
but it performs no write to persistent storage at all. -/
theorem refreshAll_isolated_failure (fetchStatus : String → Option String)
    (submissions : List SubmissionRecord)
    (newStatus : Fin submissions.length → String)
    (f : Fin submissions.length)
    (hpend : ∀ sub ∈ submissions, sub.status = "PENDING")
    (hfail : fetchStatus (submissions.get f).operation = none)
    (hok : ∀ i : Fin submissions.length, i ≠ f →
      fetchStatus (submissions.get i).operation = some (newStatus i)) :
    (refreshSubmissionStatusAll fetchStatus submissions).1.length
        = submissions.length ∧
    (refreshSubmissionStatusAll fetchStatus submissions).2 = [] ∧
    (∀ h : f.val < (refreshSubmissionStatusAll fetchStatus submissions).1.length,
      (refreshSubmissionStatusAll fetchStatus submissions).1.get ⟨f.val, h⟩
        = submissions.get f) ∧
    (∀ i : Fin submissions.length, i ≠ f →
      ∀ h : i.val < (refreshSubmissionStatusAll fetchStatus submissions).1.length,
      (refreshSubmissionStatusAll fetchStatus submissions).1.get ⟨i.val, h⟩
        = { submissions.get i with status := newStatus i }) := by
  refine ⟨by simp [refreshSubmissionStatusAll], rfl, ?_, ?_⟩
  · intro h
    have hget : (refreshSubmissionStatusAll fetchStatus submissions).1.get ⟨f.val, h⟩
        = (bulkRefreshOne fetchStatus (submissions.get f)).1 := by
      simp [refreshSubmissionStatusAll, List.get_eq_getElem, List.getElem_map]
    have hst : (submissions.get f).status = "PENDING" :=
      hpend _ (submissions.get_mem f.val f.isLt)
    rw [hget, bulkRefreshOne, hst, hfail]
    simp
  · intro i hif h
    have hget : (refreshSubmissionStatusAll fetchStatus submissions).1.get ⟨i.val, h⟩
        = (bulkRefreshOne fetchStatus (submissions.get i)).1 := by
      simp [refreshSubmissionStatusAll, List.get_eq_getElem, List.getElem_map]
    have hst : (submissions.get i).status = "PENDING" :=
      hpend _ (submissions.get_mem i.val i.isLt)
    rw [hget, bulkRefreshOne, hst, hok i hif]
    simp

/-- C4 witness: the amended theorem applied to the two concrete PENDING
records, the refresh of the first failing and of the second succeeding. -/
theorem refreshAll_isolated_failure_witness :
    (∀ sub ∈ [pendingA, pendingB], sub.status = "PENDING") ∧
    ((refreshSubmissionStatusAll oneFailFetch [pendingA, pendingB]).1.length
        = ([pendingA, pendingB] : List SubmissionRecord).length ∧
      (refreshSubmissionStatusAll oneFailFetch [pendingA, pendingB]).2 = [] ∧
      (∀ h : (0 : Nat) < (refreshSubmissionStatusAll oneFailFetch [pendingA, pendingB]).1.length,
        (refreshSubmissionStatusAll oneFailFetch [pendingA, pendingB]).1.get ⟨0, h⟩
          = ([pendingA, pendingB] : List SubmissionRecord).get
              ⟨0, by decide⟩) ∧
      (∀ i : Fin ([pendingA, pendingB] : List SubmissionRecord).length,
        i ≠ ⟨0, by decide⟩ →
        ∀ h : i.val < (refreshSubmissionStatusAll oneFailFetch [pendingA, pendingB]).1.length,
        (refreshSubmissionStatusAll oneFailFetch [pendingA, pendingB]).1.get ⟨i.val, h⟩
          = { ([pendingA, pendingB] : List SubmissionRecord).get i with
              status := "SUCCEEDED" })) :=
  ⟨by decide,
   refreshAll_isolated_failure oneFailFetch [pendingA, pendingB]
     (fun _ => "SUCCEEDED") ⟨0, by decide⟩ (by decide) (by decide) (by decide)⟩

/-- C10: the per-record refresh of WebRiskDemo preserves the length and
order of the submission list and leaves every record whose operation handle
differs from the target byte-for-byte unchanged, on the success path and on
both failure paths alike. -/
theorem refreshOne_frame (nowIso operation : String)
    (outcome : StatusFetchOutcome) (submissions : List SubmissionRecord)
    (slot : Slot) (i : Nat) (h : i < submissions.length)
    (hne : (submissions.get ⟨i, h⟩).operation ≠ operation) :
    (refreshSubmissionStatus nowIso operation outcome submissions
        slot).submissions.length = submissions.length ∧
    (refreshSubmissionStatus nowIso operation outcome submissions
        slot).submissions.map (fun sub => sub.operation)
      = submissions.map (fun sub => sub.operation) ∧
    ∀ h2 : i < (refreshSubmissionStatus nowIso operation outcome submissions
        slot).submissions.length,
      (refreshSubmissionStatus nowIso operation outcome submissions
        slot).submissions.get ⟨i, h2⟩ = submissions.get ⟨i, h⟩ := by
  cases outcome with
  | ok status details =>
    refine ⟨by simp [refreshSubmissionStatus], ?_, ?_⟩
    · rw [refreshSubmissionStatus]
      simp only [List.map_map]
      refine List.map_congr_left ?_
      intro sub _
      by_cases hop : sub.operation = operation <;> simp [hop]
    · intro h2
      have hget : (refreshSubmissionStatus nowIso operation
          (StatusFetchOutcome.ok status details) submissions
          slot).submissions.get ⟨i, h2⟩
          = (if (submissions.get ⟨i, h⟩).operation == operation then { submissions.get ⟨i, h⟩ with status := status, lastUpdated := nowIso, details := details } else submissions.get ⟨i, h⟩) := by
        simp [refreshSubmissionStatus, List.get_eq_getElem, List.getElem_map]
      rw [hget, if_neg (by simpa using hne)]
  | httpError code => exact ⟨rfl, rfl, fun h2 => rfl⟩
  | transportError => exact ⟨rfl, rfl, fun h2 => rfl⟩

/-- C10 witness: the frame theorem applied to a concrete two-record list and
a successful refresh targeting the second record's operation handle. -/
theorem refreshOne_frame_witness :
    (([pendingA, pendingB] : List SubmissionRecord).get ⟨0, by decide⟩).operation ≠ "op-b" ∧
    ((refreshSubmissionStatus "t1" "op-b" (StatusFetchOutcome.ok "SUCCEEDED" none)
        [pendingA, pendingB] Slot.absent).submissions.length
        = ([pendingA, pendingB] : List SubmissionRecord).length ∧
      (refreshSubmissionStatus "t1" "op-b" (StatusFetchOutcome.ok "SUCCEEDED" none)
        [pendingA, pendingB] Slot.absent).submissions.map (fun sub => sub.operation)
        = ([pendingA, pendingB] : List SubmissionRecord).map (fun sub => sub.operation) ∧
      ∀ h2 : (0 : Nat) < (refreshSubmissionStatus "t1" "op-b"
          (StatusFetchOutcome.ok "SUCCEEDED" none)
          [pendingA, pendingB] Slot.absent).submissions.length,
        (refreshSubmissionStatus "t1" "op-b" (StatusFetchOutcome.ok "SUCCEEDED" none)
          [pendingA, pendingB] Slot.absent).submissions.get ⟨0, h2⟩
          = ([pendingA, pendingB] : List SubmissionRecord).get ⟨0, by decide⟩) :=
  ⟨by decide,
   refreshOne_frame "t1" "op-b" (StatusFetchOutcome.ok "SUCCEEDED" none)
     [pendingA, pendingB] Slot.absent 0 (by decide) (by decide)⟩

end WebRisk
